import Mathlib

/-!
Shallow embedding of the `groupby` repository (src/groupby/gcal.py and
src/groupby/linkedin.py): calendar-event normalization, filtering,
aggregation and chart rendering, plus the LinkedIn contact/invite helpers.

Modelling conventions:
  - Python strings are Lean `String` (or `List Char` where character-level
    matching is needed).
  - Python floats (durations, timestamps) are modelled as exact rationals `ℚ`.
  - A Python function that may raise is modelled as `Except String α`
    (`Except.error` = an uncaught exception); a function that catches all
    exceptions and returns a sentinel value instead is modelled with an
    ordinary sum type, since it never raises.
  - pandas DataFrames are lists of records; column assignment is a map,
    boolean-mask filtering is `List.filter`, and `groupby(...).sum()` is a
    map over the deduplicated keys.
-/

/-- Python's substring test `pat in s` / pandas `Series.str.contains(pat)`
for a pattern with no regex metacharacters (case-sensitive containment). -/
def str_contains (s pat : String) : Bool :=
  (List.range (s.data.length + 1)).any fun i => pat.data.isPrefixOf (s.data.drop i)

/-! ### Regular expressions

Model of the compiled regex patterns fed to `_group` (`re` module).
Matching semantics by Brzozowski derivatives; `Regex.fullmatch` decides
whether a regex matches an entire string, and `Regex.pmatch` is Python's
`pattern.match`, which succeeds iff the pattern matches some PREFIX of the
string (anchored at the start only). -/

inductive Regex where
  | emptyset : Regex
  | eps : Regex
  | char : Char → Regex
  | alt : Regex → Regex → Regex
  | cat : Regex → Regex → Regex
  | star : Regex → Regex
deriving DecidableEq, Repr

def Regex.nullable : Regex → Bool
  | .emptyset => false
  | .eps => true
  | .char _ => false
  | .alt r s => r.nullable || s.nullable
  | .cat r s => r.nullable && s.nullable
  | .star _ => true

def Regex.deriv : Regex → Char → Regex
  | .emptyset, _ => .emptyset
  | .eps, _ => .emptyset
  | .char c, a => if a = c then .eps else .emptyset
  | .alt r s, a => .alt (r.deriv a) (s.deriv a)
  | .cat r s, a =>
      if r.nullable then .alt (.cat (r.deriv a) s) (s.deriv a)
      else .cat (r.deriv a) s
  | .star r, a => .cat (r.deriv a) (.star r)

/-- `r.fullmatch cs` : the regex matches the whole character list. -/
def Regex.fullmatch (r : Regex) : List Char → Bool
  | [] => r.nullable
  | c :: cs => (r.deriv c).fullmatch cs

/-- Python's `pattern.match(s)` (as a Boolean): succeeds iff the pattern
matches at the start of `s`, i.e. matches some prefix of `s`. It is NOT
required to match the full string. -/
def Regex.pmatch (r : Regex) (s : List Char) : Bool :=
  (List.range (s.length + 1)).any fun i => r.fullmatch (s.take i)

/-- The literal regex for a plain string (no metacharacters). -/
def Regex.lit : List Char → Regex
  | [] => .eps
  | c :: cs => .cat (.char c) (Regex.lit cs)

/-! ### gcal.py : `_group` -/

/-- `_group(s, groups)` from src/groupby/gcal.py: walks the ordered list of
(compiled pattern, replacement) pairs and returns the replacement of the
first pattern for which `pattern.match(s)` succeeds; if none does, returns
`s` itself. -/
def _group (s : List Char) : List (Regex × List Char) → List Char
  | [] => s
  | (pattern, replacement) :: rest =>
      if pattern.pmatch s then replacement else _group s rest

/-- Written from the spec's words ("the first rule whose pattern matches the
full name (anchored match, not substring) determines the replacement name"),
for comparison with `_group`: identical except that it requires a full-string
match instead of Python's start-anchored `pattern.match`. -/
def _group_full (s : List Char) : List (Regex × List Char) → List Char
  | [] => s
  | (pattern, replacement) :: rest =>
      if pattern.fullmatch s then replacement else _group_full s rest

/-! ### gcal.py : `_total_hours` -/

/-- `_total_hours(seconds)` from src/groupby/gcal.py: `seconds / 3600.0`. -/
def _total_hours (seconds : ℚ) : ℚ := seconds / 3600

-- sanity examples (concrete evaluation of the embedding)
example : _group "foobar".data [(Regex.lit "foo".data, "X".data)] = "X".data := by decide
example : _group "quux".data [(Regex.lit "foo".data, "X".data)] = "quux".data := by decide
example : (Regex.lit "foo".data).fullmatch "foobar".data = false := by decide
example : str_contains "my Birthday party" "birthday" = false := by decide
example : str_contains "my birthday party" "birthday" = true := by decide

/-! ### gcal.py : `_process_calendar` -/

/-- An `arrow` datetime as far as the pipeline reads it: the calendar
fields extracted via `.datetime.day/.month/.year/.hour`, together with the
absolute position on the time line in seconds (used for durations). -/
structure DateTime where
  year : Int
  month : Int
  day : Int
  hour : Int
  timestamp : ℚ
deriving DecidableEq, Repr

/-- An event of the parsed `ics.Calendar`: begin, end and display name.
`event.duration` in the ics library is `end - begin`, so
`event.duration.total_seconds()` is modelled as
`ends.timestamp - begin.timestamp`. (`end` is a Lean keyword, hence
`ends`.) -/
structure Event where
  begin : DateTime
  ends : DateTime
  name : String
deriving DecidableEq, Repr

/-- One row of the DataFrame built by `_process_calendar`
(columns day, month, year, hour, event_name, duration). -/
structure CalRow where
  day : Int
  month : Int
  year : Int
  hour : Int
  event_name : String
  duration : ℚ
deriving DecidableEq, Repr

/-- `_process_calendar` from src/groupby/gcal.py, after parsing: one output
row per calendar event, carrying the start date's day/month/year/hour, the
event name, and `event.duration.total_seconds()` stored as-is (no sign
check, no filtering at this stage). -/
def _process_calendar (events : List Event) : List CalRow :=
  events.map fun e =>
    { day := e.begin.day
      month := e.begin.month
      year := e.begin.year
      hour := e.begin.hour
      event_name := e.name
      duration := e.ends.timestamp - e.begin.timestamp }

/-! ### gcal.py : `_valid_date` and the arrow model -/

/-- The Python exceptions relevant to `_valid_date`. `arrow.parser.ParserError`
subclasses `ValueError`, not `TypeError`. -/
inductive PyExc where
  | parserError (msg : String)
  | typeError (msg : String)
  | argumentTypeError (msg : String)
deriving DecidableEq, Repr

/-- Splits a character list at every occurrence of `sep` (like
`str.split(sep)` in Python). -/
def splitSep (sep : Char) : List Char → List (List Char)
  | [] => [[]]
  | c :: cs =>
    match splitSep sep cs with
    | [] => [[]]
    | g :: gs => if c = sep then [] :: g :: gs else (c :: g) :: gs

/-- Reads a decimal digit string as a natural number. -/
def digitsToNat (cs : List Char) : Nat :=
  cs.foldl (fun n c => 10 * n + (c.toNat - 48)) 0

/-- A well-formed-date recognizer standing in for arrow's string parser:
accepts `YYYY-MM-DD` with numeric fields in range. Exactly which strings
arrow accepts is irrelevant to the claims; what matters is that malformed
strings are rejected. -/
def parse_date (s : String) : Option DateTime :=
  match splitSep '-' s.data with
  | [ys, ms, ds] =>
      if ys.length = 4 && ms.length = 2 && ds.length = 2 &&
         (ys ++ ms ++ ds).all (·.isDigit) then
        let y := digitsToNat ys; let m := digitsToNat ms; let d := digitsToNat ds
        if 1 ≤ m && m ≤ 12 && 1 ≤ d && d ≤ 31 then
          some { year := y, month := m, day := d, hour := 0,
                 timestamp := 86400 * (365 * y + 31 * m + d) }
        else none
      else none
  | _ => none

/-- `arrow.get` applied to a string argument: returns the parsed date for a
well-formed date string and raises `arrow.parser.ParserError` — which is a
`ValueError`, NOT a `TypeError` — for a string it cannot parse. -/
def arrow_get (s : String) : Except PyExc DateTime :=
  match parse_date s with
  | some d => .ok d
  | none => .error (.parserError ("Could not match input: " ++ s))

/-- `_valid_date(s)` from src/groupby/gcal.py: `try: return arrow.get(s)
except TypeError: raise ArgumentTypeError(...)`. Only `TypeError` is
converted into the user-facing `ArgumentTypeError`; every other exception
raised by `arrow.get` propagates unchanged. -/
def _valid_date (s : String) : Except PyExc DateTime :=
  match arrow_get s with
  | .ok d => .ok d
  | .error (.typeError _) =>
      .error (.argumentTypeError ("Not a valid date: '" ++ s ++ "'."))
  | .error e => .error e

example : (_valid_date "2017-11-28").isOk = true := rfl
example : _valid_date "hello" = .error (.parserError "Could not match input: hello") := rfl

/-! ### gcal.py : the matplotlib model and the renderers `plot`, `plot_data` -/

/-- The figure object a renderer builds: the bar chart's (position, height)
pairs, the axis decorations, the configured x-ticks, size and color. -/
structure Fig where
  bars : List (ℚ × ℚ)
  title : String
  xlabel : String
  ylabel : String
  ticks : List (ℚ × String)
  size : ℚ × ℚ
  color : String
deriving DecidableEq, Repr

/-- `ax.bar(xs, heights, color=...)`: raises `ValueError` when the x and
height sequences have different lengths (shape mismatch), otherwise draws
one bar per pair. -/
def ax_bar (xs heights : List ℚ) : Except String (List (ℚ × ℚ)) :=
  if xs.length = heights.length then .ok (xs.zip heights)
  else .error "ValueError: shape mismatch"

/-- `plt.xticks(ticks, labels)`: raises `ValueError` when the number of tick
locations differs from the number of labels. -/
def plt_xticks (ticks : List ℚ) (labels : List String) : Except String (List (ℚ × String)) :=
  if ticks.length = labels.length then .ok (ticks.zip labels)
  else .error "ValueError: tick locations and labels differ in length"

/-- The body of `plot` in src/groupby/gcal.py (the statements inside the
`try:` block): `ax.bar(z[0:5], y[0:5], color=fig_color)`, the axis
decorations, and — only when the flag is `-T` or `-L` —
`plt.xticks(z[0:5], x[0:5])`. An `Except.error` is a raised exception. -/
def plot_body (x : List String) (y z : List ℚ) (xlabel ylabel title : String)
    (fig_size : ℚ × ℚ) (fig_color flag : String) : Except String Fig := do
  let bars ← ax_bar (z.take 5) (y.take 5)
  let ticks ←
    if flag = "-T" ∨ flag = "-L" then plt_xticks (z.take 5) (x.take 5)
    else pure []
  .ok { bars := bars, title := title, xlabel := xlabel, ylabel := ylabel,
        ticks := ticks, size := fig_size, color := fig_color }

/-- `plot` from src/groupby/gcal.py: runs the body under a bare
`try/except` and returns the string `"Can't generate plot"` (a normal
return value, not an exception) whenever the body raises anything.
`Sum.inl` is a figure, `Sum.inr` the sentinel string; the function itself
never raises. -/
def plot (x : List String) (y z : List ℚ) (xlabel ylabel title : String)
    (fig_size : ℚ × ℚ) (fig_color flag : String) : Fig ⊕ String :=
  match plot_body x y z xlabel ylabel title fig_size fig_color flag with
  | .ok fig => .inl fig
  | .error _ => .inr "Can't generate plot"

/-- A pandas DataFrame as `plot_data` reads it: named numeric columns.
Column selection `df[c]` raises `KeyError` when `c` is absent. -/
structure DF where
  cols : List (String × List ℚ)
deriving DecidableEq, Repr

def DF.col (df : DF) (c : String) : Except String (List ℚ) :=
  match df.cols.find? (fun p => p.1 = c) with
  | some p => .ok p.2
  | none => .error ("KeyError: " ++ c)

/-- `plot_data` from src/groupby/gcal.py: `ax.bar(x[x_column], x[y_column],
color=fig_color)`, the axis decorations, `plt.xticks(x[x_column], y)`, and
the figure size. There is NO `try/except` here: any exception raised by a
column lookup, by `ax.bar` or by `plt.xticks` propagates to the caller
(`Except.error` = a raised exception). -/
def plot_data (x : DF) (y : List String) (x_column y_column : String)
    (xlabel ylabel title : String) (fig_size : ℚ × ℚ) (fig_color : String) :
    Except String Fig := do
  let xs ← x.col x_column
  let ys ← x.col y_column
  let bars ← ax_bar xs ys
  let ticks ← plt_xticks xs y
  .ok { bars := bars, title := title, xlabel := xlabel, ylabel := ylabel,
        ticks := ticks, size := fig_size, color := fig_color }

/-- The month-name list hard-coded in `get_plots`. -/
def months : List String :=
  ["January", "Febuary", "March", "April", "May", "June", "July",
   "August", "September", "October", "November", "December"]

/-! ### gcal.py : the data pipeline inside `get_plots` -/

/-- A `cal_df` row after `get_plots` has added the derived `minutes` and
`hours` columns (and the constant `count` column, which is always 1). -/
structure Row extends CalRow where
  minutes : ℚ
  hours : ℚ
deriving DecidableEq, Repr

/-- `cal_df['minutes'] = cal_df['duration'] / 60` and
`cal_df['hours'] = cal_df['duration'] / 3600` : every row gains the two
derived columns, each computed from that row's `duration`. -/
def add_derived (df : List CalRow) : List Row :=
  df.map fun r => { toCalRow := r, minutes := r.duration / 60, hours := r.duration / 3600 }

/-- `cal_df = cal_df[~cal_df['event_name'].str.contains('birthday')]` :
keeps exactly the rows whose name does not contain the (case-sensitive)
substring `"birthday"`. -/
def filter_birthdays (df : List Row) : List Row :=
  df.filter fun r => !(str_contains r.event_name "birthday")

/-- `cal_df = cal_df[(cal_df['hours'] < 24) & (cal_df['hours'] > 0)]` :
keeps exactly the rows with `0 < hours < 24`. -/
def filter_duration (df : List Row) : List Row :=
  df.filter fun r => decide (r.hours < 24) && decide (r.hours > 0)

/-- The full filtering pre-step of `get_plots` applied after the derived
columns are added. -/
def filtered (df : List CalRow) : List Row :=
  filter_duration (filter_birthdays (add_derived df))

/-- One row of `cal_min`, the by-name aggregation. -/
structure NameAgg where
  event_name : String
  count : Nat
  minutes : ℚ
deriving DecidableEq, Repr

/-- `cal_df['count'] = 1` followed by
`cal_df.groupby(['event_name'], as_index=False)['event_name','count','minutes'].sum()` :
one output row per distinct event name, whose `count` is the sum of the
constant-1 column over the group and whose `minutes` is the sum of the
group's `minutes` column. (pandas emits the groups sorted by key; the
claims are insensitive to row order, so the distinct keys are kept in
first-occurrence order here.) -/
def agg_by_name (df : List Row) : List NameAgg :=
  ((df.map fun r => r.event_name).dedup).map fun n =>
    let grp := df.filter fun r => r.event_name == n
    { event_name := n
      count := (grp.map fun _ => (1 : Nat)).sum
      minutes := (grp.map fun r => r.minutes).sum }

/-- `cal_min` as computed in `get_plots`: filter, then aggregate by name. -/
def cal_min (cal_df : List CalRow) : List NameAgg :=
  agg_by_name (filtered cal_df)

/-! ### linkedin.py : `get_sent_receive_invites` -/

/-- A row of the invites DataFrame: free-form string cells addressed by
column name. -/
structure LRow where
  cells : List (String × String)
deriving DecidableEq, Repr

/-- The value of column `c` in the row (the empty string when the column is
absent; the claims only compare this value against the two direction
constants). -/
def LRow.col (r : LRow) (c : String) : String :=
  ((r.cells.find? fun p => p.1 = c).map Prod.snd).getD ""

/-- `get_sent_receive_invites(df, direction_column)` from
src/groupby/linkedin.py: two boolean-mask selections,
`df[df[direction_column] == 'OUTGOING']` and
`df[df[direction_column] == 'INCOMING']`. -/
def get_sent_receive_invites (df : List LRow) (direction_column : String) :
    List LRow × List LRow :=
  (df.filter fun r => decide (r.col direction_column = "OUTGOING"),
   df.filter fun r => decide (r.col direction_column = "INCOMING"))

/-! ### linkedin.py : `import_recruiters_contacts` -/

/-- A row of the contacts DataFrame: the `Position` cell (`none` models a
missing value / NaN, which `.dropna()` skips). -/
structure Contact where
  position : Option String
deriving DecidableEq, Repr

/-- The keyword list hard-coded in `import_recruiters_contacts`. -/
def recruiter_words : List String := ["Recruiter", "Talent", "Sourcer", "Recruiting"]

/-- `read_safely` is called by `import_recruiters_contacts` but is not
defined anywhere under src/. Modelled from the spec: it reads the tabular
contacts export at the given path; here it is an arbitrary map from paths
to tables, passed in explicitly. -/
def read_safely (fs : String → List Contact) (path : String) : List Contact :=
  fs path

/-- `import_recruiters_contacts(path)` from src/groupby/linkedin.py: note
that the `path` parameter is NOT used — the function reads the fixed path
`'./connections.csv'`. Each non-missing `Position` containing one of the
keywords is rewritten to `'Recruiter'`, then the rows whose `Position`
equals `'Recruiter'` are selected. -/
def import_recruiters_contacts (fs : String → List Contact) (path : String) :
    List Contact :=
  let contacts_df := read_safely fs "./connections.csv"
  let relabelled := contacts_df.map fun c =>
    { c with position := c.position.map fun p =>
        if recruiter_words.any (fun w => str_contains p w) then "Recruiter" else p }
  relabelled.filter fun c => decide (c.position = some "Recruiter")

/-! ### Concrete data for the spec's scenarios -/

/-- The C4 scenario input: three 30-minute events named "Standup" and one
1440-minute (24 h) event named "Birthday", all in the same month. -/
def scenario_df : List CalRow :=
  [ { day := 6, month := 11, year := 2017, hour := 9,
      event_name := "Standup", duration := 1800 },
    { day := 7, month := 11, year := 2017, hour := 9,
      event_name := "Standup", duration := 1800 },
    { day := 8, month := 11, year := 2017, hour := 9,
      event_name := "Standup", duration := 1800 },
    { day := 9, month := 11, year := 2017, hour := 0,
      event_name := "Birthday", duration := 86400 } ]

/-- A DataFrame with empty `month` and `hours` columns: the aggregate of an
empty filtered table, the "empty x-values" malformed chart spec. -/
def empty_month_df : DF := { cols := [("month", []), ("hours", [])] }

/-- A single normalized record (a 30-minute "Standup"), used to instantiate
universally quantified theorems at a concrete input. -/
def rec0 : CalRow :=
  { day := 6, month := 11, year := 2017, hour := 9,
    event_name := "Standup", duration := 1800 }

/-- `rec0` with its derived columns, i.e. the row `add_derived` makes of it. -/
def row0 : Row :=
  { toCalRow := rec0, minutes := rec0.duration / 60, hours := rec0.duration / 3600 }

/-- A calendar event whose end precedes its start by 100 seconds. -/
def ev0 : Event :=
  { begin := { year := 2017, month := 11, day := 6, hour := 9, timestamp := 100 },
    ends := { year := 2017, month := 11, day := 6, hour := 9, timestamp := 0 },
    name := "Standup" }

/-- A concrete outgoing-invite row. -/
def lrow0 : LRow := { cells := [("Direction", "OUTGOING")] }


/-! ## Theorems for the claims -/

/-- C2 counterexample: with the single rule (pattern `foo`, replacement `X`)
and the name `foobar`, no rule matches the FULL name (so the claim says the
original name is kept), yet `_group` returns the replacement `X`, because
Python's `pattern.match` only anchors at the start. -/
theorem group_anchored_cex :
    _group "foobar".data [(Regex.lit "foo".data, "X".data)] = "X".data ∧
    _group_full "foobar".data [(Regex.lit "foo".data, "X".data)] = "foobar".data ∧
    decide (_group "foobar".data [(Regex.lit "foo".data, "X".data)] =
      _group_full "foobar".data [(Regex.lit "foo".data, "X".data)]) = false :=
  ⟨by decide, by decide, by decide⟩

/-- C2 (amended): `_group` returns the replacement of the FIRST rule whose
pattern matches at the start of the name (Python `pattern.match`: anchored
at the beginning only, not a full-name match and not a substring search),
and returns the original name when no rule so matches — i.e. it computes
exactly `find?` of the start-anchored match over the ordered rule list. -/
theorem group_first_start_anchored (s : List Char) (rules : List (Regex × List Char)) :
    _group s rules = (((rules.find? fun pr => pr.1.pmatch s).map Prod.snd).getD s) := by
  induction rules with
  | nil => rfl
  | cons pr rest ih =>
    obtain ⟨p, repl⟩ := pr
    by_cases h : p.pmatch s
    · simp [_group, h, List.find?_cons_of_pos]
    · simpa [_group, h, List.find?_cons_of_neg] using ih

/-- C3: `_valid_date` applied to the malformed date string `"hello"` does
not produce the user-facing `ArgumentTypeError` its docstring promises: the
`except TypeError` clause does not catch `arrow.parser.ParserError` (a
`ValueError`), so the parser error propagates unchanged. -/
theorem valid_date_propagates_parser_error :
    _valid_date "hello" = .error (.parserError "Could not match input: hello") := rfl

/-- C9: `import_recruiters_contacts` ignores its `path` parameter — for any
underlying file contents and any two paths, the results coincide, because
the function always reads the fixed path `./connections.csv`. -/
theorem path_ignored (fs : String → List Contact) (p1 p2 : String) :
    import_recruiters_contacts fs p1 = import_recruiters_contacts fs p2 := rfl

/-- C10: `get_sent_receive_invites` splits the table into a sub-table of
rows whose direction is exactly `OUTGOING` and one of rows whose direction
is exactly `INCOMING`; the two are disjoint, and a row with any other
direction value appears in neither. -/
theorem invites_partition (df : List LRow) (dc : String) :
    (∀ r ∈ (get_sent_receive_invites df dc).1, r.col dc = "OUTGOING") ∧
    (∀ r ∈ (get_sent_receive_invites df dc).2, r.col dc = "INCOMING") ∧
    (∀ r, ¬(r ∈ (get_sent_receive_invites df dc).1 ∧
            r ∈ (get_sent_receive_invites df dc).2)) ∧
    (∀ r ∈ df, r.col dc ≠ "OUTGOING" → r.col dc ≠ "INCOMING" →
      r ∉ (get_sent_receive_invites df dc).1 ∧
      r ∉ (get_sent_receive_invites df dc).2) := by
  refine ⟨?_, ?_, ?_, ?_⟩
  · intro r hr
    exact of_decide_eq_true (List.mem_filter.mp hr).2
  · intro r hr
    exact of_decide_eq_true (List.mem_filter.mp hr).2
  · rintro r ⟨h1, h2⟩
    have e1 := of_decide_eq_true (List.mem_filter.mp h1).2
    have e2 := of_decide_eq_true (List.mem_filter.mp h2).2
    simp [e1] at e2
  · intro r _ hout hin
    constructor
    · intro hr
      exact hout (of_decide_eq_true (List.mem_filter.mp hr).2)
    · intro hr
      exact hin (of_decide_eq_true (List.mem_filter.mp hr).2)

/-- C10 witness: the partition theorem applied to a concrete one-row table,
with the membership hypothesis discharged by evaluation. -/
theorem invites_partition_witness : lrow0.col "Direction" = "OUTGOING" :=
  (invites_partition [lrow0] "Direction").1 lrow0 (by decide)

/-- C7: every row produced by the derived-column step of `get_plots`
satisfies `minutes = duration / 60` and `hours = duration / 3600` exactly,
and the standalone conversion `_total_hours` likewise divides by 3600. -/
theorem minutes_hours_exact (df : List CalRow) (r : Row)
    (h : r ∈ add_derived df) (s : ℚ) :
    r.minutes = r.duration / 60 ∧ r.hours = r.duration / 3600 ∧
    _total_hours s = s / 3600 := by
  rcases List.mem_map.mp h with ⟨a, -, rfl⟩
  exact ⟨rfl, rfl, rfl⟩

/-- C7 witness: the conversion theorem at the concrete row `row0`. -/
theorem minutes_hours_exact_witness :
    row0.minutes = row0.duration / 60 ∧ row0.hours = row0.duration / 3600 ∧
    _total_hours 7200 = (7200 : ℚ) / 3600 :=
  minutes_hours_exact [rec0] row0 (by exact List.mem_singleton.mpr rfl) 7200

/-- C8: `_process_calendar` drops no event and stores each event's duration
`end - begin` (in seconds) as-is; in particular an event whose end precedes
its start yields a row whose duration is the unmodified negative value. -/
theorem negative_duration_passthrough (events : List Event) (e : Event)
    (he : e ∈ events) (hneg : e.ends.timestamp < e.begin.timestamp) :
    (_process_calendar events).length = events.length ∧
    ∃ r ∈ _process_calendar events,
      r.duration = e.ends.timestamp - e.begin.timestamp ∧ r.duration < 0 := by
  refine ⟨List.length_map _ _, ?_⟩
  refine ⟨_, List.mem_map_of_mem _ he, rfl, ?_⟩
  simpa using sub_neg.mpr hneg

/-- C8 witness: the pass-through theorem at the concrete event `ev0`
(end 100 seconds before start). -/
theorem negative_duration_passthrough_witness :
    (_process_calendar [ev0]).length = 1 ∧
    ∃ r ∈ _process_calendar [ev0],
      r.duration = ev0.ends.timestamp - ev0.begin.timestamp ∧ r.duration < 0 :=
  negative_duration_passthrough [ev0] ev0 (List.mem_singleton.mpr rfl)
    (by norm_num [ev0])

/-- C1 counterexample: on the malformed chart spec with empty x-values (the
monthly aggregate of an empty table, as `get_plots` passes it together with
the 12 month labels), `plot_data` does not return the sentinel string — it
raises (`Except.error` = an uncaught exception), because it has no
`try/except` around its body. -/
theorem plot_data_raises_on_empty_x :
    plot_data empty_month_df months "month" "hours" "Month" "Hours Spent "
      "Total Time Spent Per Month" (15, 5) "#db3236" =
      .error "ValueError: tick locations and labels differ in length" := rfl

/-- C1 (amended): `plot` — but not `plot_data` — is wrapped in a bare
`try/except`, so whenever its body raises anything it returns the sentinel
string `"Can't generate plot"` as a normal value; `plot_data` performs no
such handling and propagates the exception. -/
theorem plot_never_raises (x : List String) (y z : List ℚ)
    (xlabel ylabel title : String) (fig_size : ℚ × ℚ) (fig_color flag : String)
    (e : String)
    (h : plot_body x y z xlabel ylabel title fig_size fig_color flag = .error e) :
    plot x y z xlabel ylabel title fig_size fig_color flag = .inr "Can't generate plot" := by
  simp [plot, h]

/-- C1 witness: a malformed spec for `plot` (bar positions and heights of
different lengths); the body raises and `plot` returns the sentinel. -/
theorem plot_never_raises_witness :
    plot_body [] [] [1] "x" "y" "t" (15, 5) "#db3236" "-N" = .error "ValueError: shape mismatch" ∧
    plot [] [] [1] "x" "y" "t" (15, 5) "#db3236" "-N" = .inr "Can't generate plot" :=
  ⟨rfl, plot_never_raises [] [] [1] "x" "y" "t" (15, 5) "#db3236" "-N" _ rfl⟩

/-- C4: on the scenario input (three 30-minute "Standup" events and one
1440-minute "Birthday" in the same month), the filter-then-aggregate-by-name
pipeline of `get_plots` yields exactly one row: name "Standup", count 3,
minutes 90 — and no "Birthday" row. (The "Birthday" event survives the
case-sensitive `'birthday'` name filter but is removed by the
`hours < 24` duration filter, since 1440 minutes is exactly 24 hours.) -/
theorem scenario_standup_agg :
    cal_min scenario_df = [{ event_name := "Standup", count := 3, minutes := 90 }] := by
  have hs : str_contains "Standup" "birthday" = false := rfl
  have hb : str_contains "Birthday" "birthday" = false := rfl
  have h1 : (decide ((1800 : ℚ) / 3600 < 24) && decide ((1800 : ℚ) / 3600 > 0)) = true := by
    simp only [Bool.and_eq_true, decide_eq_true_eq]; constructor <;> norm_num
  have h2 : (decide ((86400 : ℚ) / 3600 < 24)) = false := by
    simp only [decide_eq_false_iff_not]; norm_num
  simp only [cal_min, filtered, add_derived, filter_birthdays, filter_duration,
    agg_by_name, scenario_df, List.map_cons, List.map_nil, List.filter_cons,
    List.filter_nil, hs, hb, Bool.not_false, if_true]
  norm_num [h1, h2]

/-- C5: the filtering pre-step of `get_plots` keeps a row iff it came from
the input (with its derived columns) and is neither a `'birthday'`-named
row nor one with `hours ≤ 0` or `hours ≥ 24` — i.e. it removes exactly the
excluded rows and keeps all others. -/
theorem filter_exact (df : List CalRow) (r : Row) :
    r ∈ filtered df ↔
      r ∈ add_derived df ∧
      ¬(str_contains r.event_name "birthday" = true ∨ r.hours ≤ 0 ∨ 24 ≤ r.hours) := by
  simp only [filtered, filter_duration, filter_birthdays, List.mem_filter,
    Bool.and_eq_true, decide_eq_true_eq, Bool.not_eq_true, Bool.not_eq_true',
    not_or, not_le]
  tauto

/-- Sum of the per-group constant-1 `count` column over all name groups
equals the number of aggregated rows. -/
theorem agg_by_name_count_sum (df : List Row) :
    ((agg_by_name df).map (fun a => a.count)).sum = df.length := by
  unfold agg_by_name
  rw [List.map_map]
  have key := List.sum_map_count_dedup_eq_length (df.map fun r => r.event_name)
  rw [List.length_map] at key
  rw [← key]
  apply congrArg
  apply List.map_congr_left
  intro n _
  simp only [Function.comp]
  rw [List.map_const', List.sum_replicate, smul_eq_mul, mul_one,
    ← List.countP_eq_length_filter, List.count, List.countP_map]
  rfl

/-- C6: after the by-name aggregation in `get_plots`, the sum of the
`count` column over all groups equals the number of filtered input
records. -/
theorem agg_count_total (cal_df : List CalRow) :
    ((cal_min cal_df).map (fun a => a.count)).sum = (filtered cal_df).length :=
  agg_by_name_count_sum (filtered cal_df)
